import Mathlib

/-!
Shallow embedding of the `Picture` typestate state machine of cros-libva
(`src/picture.rs`), together with a reference-counting model of the shared
`Surface` ownership (`std::rc::Rc`) and an oracle giving the outcomes of the
external VA-API calls.
-/

namespace CrosLibva

/-- The native VA-API status code: 0 is success. -/
abbrev VaStatus := Int

/-- The repository's `VaError`: a typed error carrying the native status. -/
structure VaError where
  code : VaStatus
deriving DecidableEq

/-- Modelled from the spec: `va_check` (defined outside `src/`) maps a native
status code to success on status 0 and otherwise to a typed error carrying
that status ("the core maps a non-success status to a typed error carrying
that status"). -/
def va_check (status : VaStatus) : Except VaError Unit :=
  if status = 0 then Except.ok () else Except.error ⟨status⟩

/-- An opaque hardware command/data buffer (external collaborator), identified
by its buffer id. -/
structure Buffer where
  id : Nat
deriving DecidableEq

/-- A hardware render target with an opaque id, generic over its memory
descriptor `D` (external collaborator). -/
structure Surface (D : Type) where
  id : Nat
  descriptor : D
deriving DecidableEq

/-- Model of `std::rc::Rc`: a shared pointer, given by the identity of the
shared cell and the (immutable) pointed-to value. The strong count of each
cell is tracked separately, in a `World`. -/
structure Rc (T : Type) where
  cellId : Nat
  val : T
deriving DecidableEq

/-- The reference-counting state: the strong count of every surface cell and
the next fresh cell identity. -/
structure World where
  counts : Nat → Nat
  nextId : Nat

/-- `Rc::new`: allocate a fresh cell with strong count 1. -/
def World.newRc {T : Type} (w : World) (v : T) : Rc T × World :=
  (⟨w.nextId, v⟩, ⟨Function.update w.counts w.nextId 1, w.nextId + 1⟩)

/-- `Rc::clone`: the same pointer, with the strong count of its cell
incremented by one. -/
def World.cloneRc {T : Type} (w : World) (r : Rc T) : Rc T × World :=
  (r, ⟨Function.update w.counts r.cellId (w.counts r.cellId + 1), w.nextId⟩)

/-- `Rc::try_unwrap`: returns the inner value when the cell has exactly one
strong reference (the cell is then dead), and otherwise hands the same `Rc`
back with the count untouched. -/
def World.tryUnwrap {T : Type} (w : World) (r : Rc T) : (T ⊕ Rc T) × World :=
  if w.counts r.cellId = 1 then
    (Sum.inl r.val, ⟨Function.update w.counts r.cellId 0, w.nextId⟩)
  else (Sum.inr r, w)

/-- The five typestate markers `PictureNew`, `PictureBegin`, `PictureRender`,
`PictureEnd`, `PictureSync` of the source, as a closed enumeration (the
sealed-trait pattern makes the state set closed). -/
inductive PState where
  | new
  | begun
  | rendering
  | ended
  | synced
deriving DecidableEq

/-- The `PictureReclaimableSurface` marker trait of the source: implemented
exactly for `PictureNew` and `PictureSync`. -/
def PState.reclaimable : PState → Bool
  | PState.new => true
  | PState.synced => true
  | _ => false

/-- `PictureInner<D>` of the source. The `Rc<Context>` is modelled by the
identity of the shared context cell: through a picture it is only ever cloned
and read, never mutated, so the identity is all that is observable. The `u64`
timestamp is stored and returned unmodified, so it is modelled as a plain
natural number. -/
structure PictureInner (D : Type) where
  timestamp : Nat
  context : Nat
  buffers : List Buffer
  surface : Rc (Surface D)
deriving DecidableEq

/-- `Picture<S, D>` of the source: the phantom state parameter `S` becomes a
runtime state tag. An operation that exists only on one `impl` block of the
source is guarded on this tag and returns `none` ("does not type-check")
outside that block. -/
structure Picture (D : Type) where
  inner : PictureInner D
  state : PState
deriving DecidableEq

/-- Outcomes of the external VA-API calls, one native status per call site;
the embedding threads this oracle through every operation that crosses the
FFI boundary. -/
structure VaOracle where
  beginStatus : VaStatus
  renderStatus : VaStatus
  endStatus : VaStatus
  syncStatus : VaStatus
  deriveImageStatus : VaStatus
  createImageStatus : VaStatus
  getImageStatus : VaStatus
deriving DecidableEq

/-- Modelled from the spec: `Surface::sync` (defined outside `src/`) is the
blocking wait for hardware completion on the surface, mapping the native
status of the wait through the usual status check. -/
def Surface.sync {D : Type} (o : VaOracle) (s : Surface D) : Except VaError Unit :=
  va_check o.syncStatus

/-- `Picture::new`: wraps a freshly prepared surface in shared ownership
(`Rc::new`), stores the given timestamp and context, and starts with an empty
buffer list; the resulting picture is in state `PictureNew`. -/
def Picture.new {D : Type} (timestamp : Nat) (context : Nat) (surface : Surface D)
    (w : World) : Picture D × World :=
  let rw := w.newRc surface
  (⟨⟨timestamp, context, [], rw.1⟩, PState.new⟩, rw.2)

/-- `Picture::new_from_same_surface`: available only when the source picture's
state implements `PictureReclaimableSurface`; clones the context reference and
the surface reference (`Rc::clone`, count incremented) and builds a fresh
`PictureNew` with the given timestamp and an empty buffer list. -/
def Picture.new_from_same_surface {D : Type} (timestamp : Nat) (picture : Picture D)
    (w : World) : Option (Picture D × World) :=
  if picture.state.reclaimable then
    let context := picture.inner.context
    let rw := w.cloneRc picture.inner.surface
    some (⟨⟨timestamp, context, [], rw.1⟩, PState.new⟩, rw.2)
  else none

/-- `Picture::add_buffer`: available only on `Picture<PictureNew>`; pushes the
buffer onto the end of the buffer list (`Vec::push`). -/
def Picture.add_buffer {D : Type} (p : Picture D) (buffer : Buffer) : Option (Picture D) :=
  if p.state = PState.new then
    some ⟨⟨p.inner.timestamp, p.inner.context, p.inner.buffers ++ [buffer], p.inner.surface⟩,
          PState.new⟩
  else none

/-- `Picture::begin`: available only on `Picture<PictureNew>`; checks the
status of `vaBeginPicture` and on success rebinds the same inner data under
the `PictureBegin` tag; on failure the error propagates and the inner data is
dropped. -/
def Picture.begin {D : Type} (o : VaOracle) (p : Picture D) :
    Option (Except VaError (Picture D)) :=
  if p.state = PState.new then
    some ((va_check o.beginStatus).map fun _ => ⟨p.inner, PState.begun⟩)
  else none

/-- `Picture::render`: available only on `Picture<PictureBegin>`; submits the
whole buffer list to `vaRenderPicture` and on success rebinds the same inner
data under the `PictureRender` tag. -/
def Picture.render {D : Type} (o : VaOracle) (p : Picture D) :
    Option (Except VaError (Picture D)) :=
  if p.state = PState.begun then
    some ((va_check o.renderStatus).map fun _ => ⟨p.inner, PState.rendering⟩)
  else none

/-- `Picture::end` (named `endPic` here because `end` is a Lean keyword):
available only on `Picture<PictureRender>`; checks the status of
`vaEndPicture` and on success rebinds the same inner data under the
`PictureEnd` tag. -/
def Picture.endPic {D : Type} (o : VaOracle) (p : Picture D) :
    Option (Except VaError (Picture D)) :=
  if p.state = PState.rendering then
    some ((va_check o.endStatus).map fun _ => ⟨p.inner, PState.ended⟩)
  else none

/-- `Picture::sync`: available only on `Picture<PictureEnd>`; waits on the
underlying surface and on success rebinds the same inner data under the
`PictureSync` tag, while on failure it returns the error together with the
untouched pre-sync picture. -/
def Picture.sync {D : Type} (o : VaOracle) (p : Picture D) :
    Option (Except (VaError × Picture D) (Picture D)) :=
  if p.state = PState.ended then
    some (match Surface.sync o p.inner.surface.val with
      | Except.ok _ => Except.ok ⟨p.inner, PState.synced⟩
      | Except.error e => Except.error (e, p))
  else none

/-- `Picture::take_surface`: available only when the state implements
`PictureReclaimableSurface`; tries `Rc::try_unwrap` on the surface, returning
the owned surface on success and otherwise rebuilding the picture from the
same surface reference, context, buffers and timestamp. -/
def Picture.take_surface {D : Type} (p : Picture D) (w : World) :
    Option ((Surface D ⊕ Picture D) × World) :=
  if p.state.reclaimable then
    let inner := p.inner
    match w.tryUnwrap inner.surface with
    | (Sum.inl surface, w1) => some (Sum.inl surface, w1)
    | (Sum.inr surface, w1) =>
        some (Sum.inr ⟨⟨inner.timestamp, inner.context, inner.buffers, surface⟩, p.state⟩, w1)
  else none

/-- The `VAImage` binding struct, reduced to the identity of the allocated
image resource. -/
structure VAImage where
  image_id : Nat
deriving DecidableEq

/-- The `VAImageFormat` binding struct, opaque to the core. -/
structure VAImageFormat where
  fourcc : Nat
deriving DecidableEq

/-- The live VA image resources held by the driver: a count of live images and
the next fresh image identity (the spec asks leak-freedom to be observed "via
resource-count assertion before/after"). -/
structure ImageWorld where
  live : Nat
  nextImageId : Nat
deriving DecidableEq

/-- `vaCreateImage` at the interface boundary: on success it allocates one new
live image resource; on failure nothing is allocated. -/
def vaCreateImage (o : VaOracle) (iw : ImageWorld) : Except VaError VAImage × ImageWorld :=
  if o.createImageStatus = 0 then
    (Except.ok ⟨iw.nextImageId⟩, ⟨iw.live + 1, iw.nextImageId + 1⟩)
  else (Except.error ⟨o.createImageStatus⟩, iw)

/-- `vaDeriveImage` at the interface boundary: on success it allocates one new
live image resource (a zero-copy view); on failure nothing is allocated. -/
def vaDeriveImage (o : VaOracle) (iw : ImageWorld) : Except VaError VAImage × ImageWorld :=
  if o.deriveImageStatus = 0 then
    (Except.ok ⟨iw.nextImageId⟩, ⟨iw.live + 1, iw.nextImageId + 1⟩)
  else (Except.error ⟨o.deriveImageStatus⟩, iw)

/-- `vaDestroyImage` at the interface boundary: releases one live image
resource. -/
def vaDestroyImage (iw : ImageWorld) : ImageWorld :=
  ⟨iw.live - 1, iw.nextImageId⟩

/-- Modelled from the spec: the external `Image` module wraps the `VAImage`
produced by a derive/create call, tracking whether it is a zero-copy view
(`derived`) or an owned copy; its mapping internals are out of scope. -/
structure Image where
  image : VAImage
  derived : Bool
  displayResolution : Nat × Nat
deriving DecidableEq

/-- Modelled from the spec: the external `Image` constructor just packages the
created or derived `VAImage` with its view/copy flag and display resolution. -/
def Image.new (image : VAImage) (derived : Bool) (displayResolution : Nat × Nat) : Image :=
  ⟨image, derived, displayResolution⟩

/-- `Picture::derive_image`: available only on `Picture<PictureSync>` and
borrowing the picture immutably; calls `vaDeriveImage` and wraps the derived
image. The picture itself is untouched. -/
def Picture.derive_image {D : Type} (o : VaOracle) (p : Picture D)
    (displayResolution : Nat × Nat) (iw : ImageWorld) :
    Option (Except VaError Image × ImageWorld) :=
  if p.state = PState.synced then
    match vaDeriveImage o iw with
    | (Except.error e, iw1) => some (Except.error e, iw1)
    | (Except.ok image, iw1) => some (Except.ok (Image.new image true displayResolution), iw1)
  else none

/-- `Picture::create_image`: available only on `Picture<PictureSync>` and
borrowing the picture immutably; calls `vaCreateImage`, then `vaGetImage` to
copy the surface content. On allocation failure the error propagates with
nothing allocated; on copy failure the freshly allocated image is explicitly
destroyed before the error propagates. -/
def Picture.create_image {D : Type} (o : VaOracle) (p : Picture D)
    (format : VAImageFormat) (codedResolution displayResolution : Nat × Nat)
    (iw : ImageWorld) : Option (Except VaError Image × ImageWorld) :=
  if p.state = PState.synced then
    match vaCreateImage o iw with
    | (Except.error e, iw1) => some (Except.error e, iw1)
    | (Except.ok image, iw1) =>
        match va_check o.getImageStatus with
        | Except.ok _ => some (Except.ok (Image.new image false displayResolution), iw1)
        | Except.error e => some (Except.error e, vaDestroyImage iw1)
  else none

/-- `Picture::timestamp`: read-only accessor, available in every state. -/
def Picture.timestamp {D : Type} (p : Picture D) : Nat :=
  p.inner.timestamp

/-- `Picture::surface` / `AsRef<Surface<D>>`: read-only view of the shared
surface, available in every state. -/
def Picture.surfaceRef {D : Type} (p : Picture D) : Surface D :=
  p.inner.surface.val

/-- The four protocol transitions, named after the methods of the source. -/
inductive TransOp where
  | tBegin
  | tRender
  | tEnd
  | tSync
deriving DecidableEq

/-- Apply one transition, keeping only an available and successful outcome. -/
def applyTransOk {D : Type} (o : VaOracle) (op : TransOp) (p : Picture D) :
    Option (Picture D) :=
  match op with
  | TransOp.tBegin =>
      match p.begin o with
      | some (Except.ok q) => some q
      | _ => none
  | TransOp.tRender =>
      match p.render o with
      | some (Except.ok q) => some q
      | _ => none
  | TransOp.tEnd =>
      match p.endPic o with
      | some (Except.ok q) => some q
      | _ => none
  | TransOp.tSync =>
      match p.sync o with
      | some (Except.ok q) => some q
      | _ => none

/-- Run a list of transitions; the run is defined exactly when every step is
available in the current state and its VA call succeeds. -/
def runTrace {D : Type} (o : VaOracle) (p : Picture D) : List TransOp → Option (Picture D)
  | [] => some p
  | op :: ops =>
      match applyTransOk o op p with
      | some q => runTrace o q ops
      | none => none

/-- The full legal protocol order of the source: begin, render, end, sync. -/
def protocolChain : List TransOp :=
  [TransOp.tBegin, TransOp.tRender, TransOp.tEnd, TransOp.tSync]

/-- The remaining legal transitions from each state. -/
def chainFrom : PState → List TransOp
  | PState.new => [TransOp.tBegin, TransOp.tRender, TransOp.tEnd, TransOp.tSync]
  | PState.begun => [TransOp.tRender, TransOp.tEnd, TransOp.tSync]
  | PState.rendering => [TransOp.tEnd, TransOp.tSync]
  | PState.ended => [TransOp.tSync]
  | PState.synced => []

/-- The public operations of `Picture`, with the way each one takes its
receiver, transcribed from the method signatures of the source: `self` for
`begin`, `render`, `end`, `sync` and `take_surface`; `&mut self` for
`add_buffer`; `&self` for `derive_image`, `create_image`, `timestamp`,
`surface` and `display`; `new_from_same_surface` borrows its source picture
immutably. -/
inductive PicOp where
  | opNew
  | opNewFromSameSurface
  | opAddBuffer
  | opBegin
  | opRender
  | opEnd
  | opSync
  | opTakeSurface
  | opDeriveImage
  | opCreateImage
  | opTimestamp
  | opSurface
  | opDisplay
deriving DecidableEq

/-- Whether the Rust method consumes its receiver (takes `self` by value), as
written in the source signatures. -/
def PicOp.consumesReceiver : PicOp → Bool
  | PicOp.opBegin => true
  | PicOp.opRender => true
  | PicOp.opEnd => true
  | PicOp.opSync => true
  | PicOp.opTakeSurface => true
  | _ => false

/-- A concrete sample surface used by the witnesses. -/
def surf0 : Surface Unit :=
  ⟨0, ()⟩

/-- A concrete shared reference to `surf0`, cell 0. -/
def rc0 : Rc (Surface Unit) :=
  ⟨0, surf0⟩

/-- A concrete sample picture in a chosen state, used by the witnesses. -/
def samplePic (s : PState) : Picture Unit :=
  ⟨⟨42, 7, [], rc0⟩, s⟩

/-- A world in which cell 0 has exactly one strong reference. -/
def w1 : World :=
  ⟨Function.update (fun _ => 0) 0 1, 1⟩

/-- A world in which cell 0 has two strong references (a sibling exists). -/
def w2 : World :=
  ⟨Function.update (fun _ => 0) 0 2, 1⟩

/-- An oracle on which every VA call succeeds. -/
def oracleOk : VaOracle :=
  ⟨0, 0, 0, 0, 0, 0, 0⟩

/-- An oracle on which every VA call fails with status 1. -/
def oracleFail : VaOracle :=
  ⟨1, 1, 1, 1, 1, 1, 1⟩

/-- An image world with no live image resource. -/
def iw0 : ImageWorld :=
  ⟨0, 0⟩

/-- The sibling picture produced from `samplePic` with timestamp 43. -/
def siblingPic : Picture Unit :=
  ⟨⟨43, 7, [], rc0⟩, PState.new⟩

/-- The world after cloning cell 0 once starting from `w1`. -/
def wSib : World :=
  ⟨Function.update w1.counts 0 (w1.counts 0 + 1), w1.nextId⟩

/-- The sample picture after one `add_buffer` of buffer 9. -/
def bufPic : Picture Unit :=
  ⟨⟨42, 7, [⟨9⟩], rc0⟩, PState.new⟩

/-- A concrete image format for the witnesses. -/
def fmt0 : VAImageFormat :=
  ⟨0⟩

/-- An oracle on which only the `vaGetImage` copy fails. -/
def oGetFail : VaOracle :=
  ⟨0, 0, 0, 0, 0, 0, 1⟩

theorem reclaimable_iff (s : PState) :
    s.reclaimable = true ↔ (s = PState.new ∨ s = PState.synced) := by
  cases s <;> simp [PState.reclaimable]

theorem begin_isSome {D : Type} (o : VaOracle) (p : Picture D) :
    (p.begin o).isSome ↔ p.state = PState.new := by
  simp only [Picture.begin]
  split <;> simp_all

theorem render_isSome {D : Type} (o : VaOracle) (p : Picture D) :
    (p.render o).isSome ↔ p.state = PState.begun := by
  simp only [Picture.render]
  split <;> simp_all

theorem endPic_isSome {D : Type} (o : VaOracle) (p : Picture D) :
    (p.endPic o).isSome ↔ p.state = PState.rendering := by
  simp only [Picture.endPic]
  split <;> simp_all

theorem sync_isSome {D : Type} (o : VaOracle) (p : Picture D) :
    (p.sync o).isSome ↔ p.state = PState.ended := by
  simp only [Picture.sync]
  split <;> simp_all

theorem begin_ok {D : Type} {o : VaOracle} {p q : Picture D}
    (h : p.begin o = some (Except.ok q)) :
    p.state = PState.new ∧ q = ⟨p.inner, PState.begun⟩ := by
  unfold Picture.begin at h
  split at h
  · refine ⟨by assumption, ?_⟩
    unfold va_check at h
    split at h <;> simp_all [Except.map]
  · cases h

theorem render_ok {D : Type} {o : VaOracle} {p q : Picture D}
    (h : p.render o = some (Except.ok q)) :
    p.state = PState.begun ∧ q = ⟨p.inner, PState.rendering⟩ := by
  unfold Picture.render at h
  split at h
  · refine ⟨by assumption, ?_⟩
    unfold va_check at h
    split at h <;> simp_all [Except.map]
  · cases h

theorem endPic_ok {D : Type} {o : VaOracle} {p q : Picture D}
    (h : p.endPic o = some (Except.ok q)) :
    p.state = PState.rendering ∧ q = ⟨p.inner, PState.ended⟩ := by
  unfold Picture.endPic at h
  split at h
  · refine ⟨by assumption, ?_⟩
    unfold va_check at h
    split at h <;> simp_all [Except.map]
  · cases h

theorem sync_ok {D : Type} {o : VaOracle} {p q : Picture D}
    (h : p.sync o = some (Except.ok q)) :
    p.state = PState.ended ∧ q = ⟨p.inner, PState.synced⟩ := by
  unfold Picture.sync at h
  split at h
  · refine ⟨by assumption, ?_⟩
    unfold Surface.sync va_check at h
    split at h <;> simp_all
  · cases h

theorem sync_err {D : Type} {o : VaOracle} {p q : Picture D} {e : VaError}
    (h : p.sync o = some (Except.error (e, q))) :
    p.state = PState.ended ∧ q = p := by
  unfold Picture.sync at h
  split at h
  · refine ⟨by assumption, ?_⟩
    unfold Surface.sync va_check at h
    split at h <;> simp_all
  · cases h

theorem begin_fail {D : Type} (o : VaOracle) (p : Picture D)
    (hs : p.state = PState.new) (hc : o.beginStatus ≠ 0) :
    p.begin o = some (Except.error ⟨o.beginStatus⟩) := by
  simp [Picture.begin, va_check, hs, hc, Except.map]

theorem render_fail {D : Type} (o : VaOracle) (p : Picture D)
    (hs : p.state = PState.begun) (hc : o.renderStatus ≠ 0) :
    p.render o = some (Except.error ⟨o.renderStatus⟩) := by
  simp [Picture.render, va_check, hs, hc, Except.map]

theorem endPic_fail {D : Type} (o : VaOracle) (p : Picture D)
    (hs : p.state = PState.rendering) (hc : o.endStatus ≠ 0) :
    p.endPic o = some (Except.error ⟨o.endStatus⟩) := by
  simp [Picture.endPic, va_check, hs, hc, Except.map]

theorem take_surface_isSome {D : Type} (p : Picture D) (w : World) :
    (p.take_surface w).isSome ↔ (p.state = PState.new ∨ p.state = PState.synced) := by
  rw [← reclaimable_iff]
  simp only [Picture.take_surface]
  split
  · split <;> simp_all
  · simp_all

theorem take_surface_succ {D : Type} (p : Picture D) (w : World)
    (hs : p.state.reclaimable = true) (hc : w.counts p.inner.surface.cellId = 1) :
    p.take_surface w =
      some (Sum.inl p.inner.surface.val,
        ⟨Function.update w.counts p.inner.surface.cellId 0, w.nextId⟩) := by
  simp [Picture.take_surface, World.tryUnwrap, hs, hc]

theorem take_surface_fail {D : Type} (p : Picture D) (w : World)
    (hs : p.state.reclaimable = true) (hc : w.counts p.inner.surface.cellId ≠ 1) :
    p.take_surface w = some (Sum.inr p, w) := by
  simp [Picture.take_surface, World.tryUnwrap, hs, hc]

theorem take_surface_some {D : Type} {p : Picture D} {w : World}
    {r : Surface D ⊕ Picture D} {w' : World}
    (h : p.take_surface w = some (r, w')) :
    p.state.reclaimable = true
    ∧ ((∃ s, r = Sum.inl s) ↔ w.counts p.inner.surface.cellId = 1)
    ∧ (∀ s, r = Sum.inl s → s = p.inner.surface.val)
    ∧ (∀ q, r = Sum.inr q → q = p ∧ w' = w) := by
  by_cases hs : p.state.reclaimable = true
  · by_cases hc : w.counts p.inner.surface.cellId = 1
    · rw [take_surface_succ p w hs hc] at h
      refine ⟨hs, ?_, ?_, ?_⟩
      · cases h
        simp [hc]
      · intro s hq
        cases h
        simp only [Sum.inl.injEq] at hq
        exact hq.symm
      · intro q hq
        cases h
        simp at hq
    · rw [take_surface_fail p w hs hc] at h
      refine ⟨hs, ?_, ?_, ?_⟩
      · cases h
        simp [hc]
      · intro s hq
        cases h
        simp at hq
      · intro q hq
        cases h
        simp at hq
        simp [hq]
  · simp [Picture.take_surface, hs] at h

theorem new_from_same_surface_isSome {D : Type} (timestamp : Nat) (p : Picture D) (w : World) :
    (Picture.new_from_same_surface timestamp p w).isSome
      ↔ (p.state = PState.new ∨ p.state = PState.synced) := by
  rw [← reclaimable_iff]
  simp only [Picture.new_from_same_surface]
  split <;> simp_all

theorem new_from_same_surface_some {D : Type} {timestamp : Nat} {p : Picture D} {w : World}
    {q : Picture D} {w' : World}
    (h : Picture.new_from_same_surface timestamp p w = some (q, w')) :
    q = ⟨⟨timestamp, p.inner.context, [], p.inner.surface⟩, PState.new⟩
    ∧ w' = ⟨Function.update w.counts p.inner.surface.cellId
              (w.counts p.inner.surface.cellId + 1), w.nextId⟩ := by
  unfold Picture.new_from_same_surface at h
  split at h
  · unfold World.cloneRc at h
    cases h
    exact ⟨rfl, rfl⟩
  · cases h

theorem add_buffer_isSome {D : Type} (p : Picture D) (b : Buffer) :
    (p.add_buffer b).isSome ↔ p.state = PState.new := by
  simp only [Picture.add_buffer]
  split <;> simp_all

theorem add_buffer_some {D : Type} {p : Picture D} {b : Buffer} {q : Picture D}
    (h : p.add_buffer b = some q) :
    q = ⟨⟨p.inner.timestamp, p.inner.context, p.inner.buffers ++ [b], p.inner.surface⟩,
         PState.new⟩ := by
  unfold Picture.add_buffer at h
  split at h
  · cases h
    rfl
  · cases h

theorem applyTransOk_chain {D : Type} {o : VaOracle} {op : TransOp} {p q : Picture D}
    (h : applyTransOk o op p = some q) :
    chainFrom p.state = op :: chainFrom q.state := by
  cases op
  case tBegin =>
    simp only [applyTransOk] at h
    split at h
    case _ q1 heq =>
      cases h
      obtain ⟨hs, hq⟩ := begin_ok heq
      rw [hs, hq]
      rfl
    case _ => cases h
  case tRender =>
    simp only [applyTransOk] at h
    split at h
    case _ q1 heq =>
      cases h
      obtain ⟨hs, hq⟩ := render_ok heq
      rw [hs, hq]
      rfl
    case _ => cases h
  case tEnd =>
    simp only [applyTransOk] at h
    split at h
    case _ q1 heq =>
      cases h
      obtain ⟨hs, hq⟩ := endPic_ok heq
      rw [hs, hq]
      rfl
    case _ => cases h
  case tSync =>
    simp only [applyTransOk] at h
    split at h
    case _ q1 heq =>
      cases h
      obtain ⟨hs, hq⟩ := sync_ok heq
      rw [hs, hq]
      rfl
    case _ => cases h

theorem runTrace_prefix {D : Type} (o : VaOracle) :
    ∀ (ops : List TransOp) (p q : Picture D),
      runTrace o p ops = some q → ops = (chainFrom p.state).take ops.length := by
  intro ops
  induction ops with
  | nil => intro p q h; rfl
  | cons op ops ih =>
    intro p q h
    simp only [runTrace] at h
    split at h
    case _ r heq =>
      have hc := applyTransOk_chain heq
      have hrest := ih r q h
      rw [List.length_cons, hc, List.take_succ_cons, ← hrest]
    case _ => cases h

theorem derive_image_isSome {D : Type} (o : VaOracle) (p : Picture D)
    (dr : Nat × Nat) (iw : ImageWorld) :
    (p.derive_image o dr iw).isSome ↔ p.state = PState.synced := by
  simp only [Picture.derive_image]
  split
  · split <;> simp_all
  · simp_all

theorem create_image_isSome {D : Type} (o : VaOracle) (p : Picture D)
    (format : VAImageFormat) (cr dr : Nat × Nat) (iw : ImageWorld) :
    (p.create_image o format cr dr iw).isSome ↔ p.state = PState.synced := by
  simp only [Picture.create_image]
  split
  · split
    · simp_all
    · split <;> simp_all
  · simp_all

theorem create_image_err {D : Type} {o : VaOracle} {p : Picture D}
    {format : VAImageFormat} {cr dr : Nat × Nat} {iw : ImageWorld}
    {e : VaError} {iw' : ImageWorld}
    (h : p.create_image o format cr dr iw = some (Except.error e, iw')) :
    iw'.live = iw.live := by
  unfold Picture.create_image vaCreateImage at h
  split at h
  · by_cases hc : o.createImageStatus = 0
    · simp only [hc, if_pos] at h
      unfold va_check at h
      by_cases hg : o.getImageStatus = 0
      · simp [hg] at h
      · simp only [hg, if_neg, reduceIte] at h
        cases h
        simp [vaDestroyImage]
    · simp only [hc, if_neg, reduceIte] at h
      cases h
      rfl
  · cases h

theorem create_image_succ {D : Type} {o : VaOracle} {p : Picture D}
    {format : VAImageFormat} {cr dr : Nat × Nat} {iw : ImageWorld}
    {img : Image} {iw' : ImageWorld}
    (h : p.create_image o format cr dr iw = some (Except.ok img, iw')) :
    iw'.live = iw.live + 1 := by
  unfold Picture.create_image vaCreateImage at h
  split at h
  · by_cases hc : o.createImageStatus = 0
    · simp only [hc, if_pos] at h
      unfold va_check at h
      by_cases hg : o.getImageStatus = 0
      · simp only [hg, if_pos, reduceIte] at h
        cases h
        rfl
      · simp [hg] at h
    · simp [hc] at h
  · cases h

/-- C1: for every picture, a run of successful transitions starting from state
`PictureNew` is exactly a prefix of the protocol chain begin, render, end,
sync in that order, and each transition is available exactly in its required
state (begin only in New, render only in Begun, end only in Rendering, sync
only in Ended), so no transition can ever run twice or out of order. -/
theorem c1_transition_order :
    (∀ (D : Type) (o : VaOracle) (p q : Picture D) (ops : List TransOp),
        p.state = PState.new → runTrace o p ops = some q →
        ops = protocolChain.take ops.length)
    ∧ (∀ (D : Type) (o : VaOracle) (p : Picture D),
        ((p.begin o).isSome ↔ p.state = PState.new)
        ∧ ((p.render o).isSome ↔ p.state = PState.begun)
        ∧ ((p.endPic o).isSome ↔ p.state = PState.rendering)
        ∧ ((p.sync o).isSome ↔ p.state = PState.ended)) := by
  constructor
  · intro D o p q ops hs h
    have hpre := runTrace_prefix o ops p q h
    rw [hs] at hpre
    exact hpre
  · intro D o p
    exact ⟨begin_isSome o p, render_isSome o p, endPic_isSome o p, sync_isSome o p⟩

/-- Witness for C1 at a concrete full successful run of the protocol. -/
theorem c1_transition_order_witness :
    protocolChain = protocolChain.take protocolChain.length :=
  c1_transition_order.1 Unit oracleOk (samplePic PState.new) (samplePic PState.synced)
    protocolChain rfl (by decide)

/-- C2: `take_surface` is available exactly in the reclaimable states New and
Synced; it succeeds exactly when the surface cell's strong count is 1, in
which case the value it returns is the picture's own surface, and on failure
it hands back a picture identical to the original (same state tag, timestamp,
context, buffers and surface reference) with the reference counts
untouched. -/
theorem c2_take_surface_spec :
    (∀ (D : Type) (p : Picture D) (w : World),
        (p.take_surface w).isSome ↔ (p.state = PState.new ∨ p.state = PState.synced))
    ∧ (∀ (D : Type) (p : Picture D) (w : World) (r : Surface D ⊕ Picture D) (w' : World),
        p.take_surface w = some (r, w') →
        (((∃ s, r = Sum.inl s) ↔ w.counts p.inner.surface.cellId = 1)
          ∧ (∀ s, r = Sum.inl s → s = p.inner.surface.val)
          ∧ ∀ q, r = Sum.inr q → q = p ∧ w' = w)) := by
  constructor
  · intro D p w
    exact take_surface_isSome p w
  · intro D p w r w' h
    exact (take_surface_some h).2

/-- Witness for C2: at a concrete sole-referent world the call succeeds with
exactly the picture's own surface, and at a concrete shared surface (strong
count 2) it fails and hands back the identical picture and world. -/
theorem c2_take_surface_witness :
    ((∃ s, (Sum.inl surf0 : Surface Unit ⊕ Picture Unit) = Sum.inl s)
        ↔ w1.counts (samplePic PState.new).inner.surface.cellId = 1)
    ∧ surf0 = (samplePic PState.new).inner.surface.val
    ∧ (samplePic PState.new = samplePic PState.new ∧ w2 = w2) := by
  have hsucc := c2_take_surface_spec.2 Unit (samplePic PState.new) w1
    (Sum.inl surf0) ⟨Function.update w1.counts 0 0, w1.nextId⟩ rfl
  have hfail := c2_take_surface_spec.2 Unit (samplePic PState.new) w2
    (Sum.inr (samplePic PState.new)) w2 rfl
  exact ⟨hsucc.1, hsucc.2.1 surf0 rfl, hfail.2.2 (samplePic PState.new) rfl⟩

/-- C3: a failed `sync` returns the error together with the original picture,
still in state `PictureEnd` with its buffers, timestamp, context and surface
exactly those of the pre-sync object, whereas failed `begin`, `render` and
`end` return only the bare error and no handle. -/
theorem c3_failure_contract :
    (∀ (D : Type) (o : VaOracle) (p q : Picture D) (e : VaError),
        p.sync o = some (Except.error (e, q)) →
        q = p ∧ q.state = PState.ended ∧ q.inner.buffers = p.inner.buffers
          ∧ q.inner.timestamp = p.inner.timestamp ∧ q.inner.context = p.inner.context
          ∧ q.inner.surface = p.inner.surface)
    ∧ (∀ (D : Type) (o : VaOracle) (p : Picture D),
        p.state = PState.new → o.beginStatus ≠ 0 →
        p.begin o = some (Except.error ⟨o.beginStatus⟩))
    ∧ (∀ (D : Type) (o : VaOracle) (p : Picture D),
        p.state = PState.begun → o.renderStatus ≠ 0 →
        p.render o = some (Except.error ⟨o.renderStatus⟩))
    ∧ (∀ (D : Type) (o : VaOracle) (p : Picture D),
        p.state = PState.rendering → o.endStatus ≠ 0 →
        p.endPic o = some (Except.error ⟨o.endStatus⟩)) := by
  refine ⟨?_, ?_, ?_, ?_⟩
  · intro D o p q e h
    obtain ⟨hs, hq⟩ := sync_err h
    subst hq
    exact ⟨rfl, hs, rfl, rfl, rfl, rfl⟩
  · intro D o p hs hc
    exact begin_fail o p hs hc
  · intro D o p hs hc
    exact render_fail o p hs hc
  · intro D o p hs hc
    exact endPic_fail o p hs hc

/-- Witness for C3: a concrete failed sync hands the picture back, and a
concrete failed begin yields the bare error. -/
theorem c3_failure_contract_witness :
    (samplePic PState.ended = samplePic PState.ended
      ∧ (samplePic PState.ended).state = PState.ended)
    ∧ Picture.begin oracleFail (samplePic PState.new)
        = some (Except.error ⟨oracleFail.beginStatus⟩) := by
  have h1 := c3_failure_contract.1 Unit oracleFail (samplePic PState.ended)
    (samplePic PState.ended) ⟨1⟩ rfl
  have h2 := c3_failure_contract.2.1 Unit oracleFail (samplePic PState.new) rfl (by decide)
  exact ⟨⟨h1.1, h1.2.1⟩, h2⟩

/-- C4: `new_from_same_surface` is available exactly when the source picture
is in a reclaimable state (New or Synced); the sibling is in state New, shares
the source's surface reference and context reference, and the surface cell's
strong count grows by exactly one while every other cell is untouched. -/
theorem c4_sibling_spec :
    (∀ (D : Type) (ts : Nat) (p : Picture D) (w : World),
        (Picture.new_from_same_surface ts p w).isSome
          ↔ (p.state = PState.new ∨ p.state = PState.synced))
    ∧ (∀ (D : Type) (ts : Nat) (p : Picture D) (w : World) (q : Picture D) (w' : World),
        Picture.new_from_same_surface ts p w = some (q, w') →
        q.state = PState.new ∧ q.inner.surface = p.inner.surface
          ∧ q.inner.context = p.inner.context
          ∧ w'.counts p.inner.surface.cellId = w.counts p.inner.surface.cellId + 1
          ∧ ∀ j, j ≠ p.inner.surface.cellId → w'.counts j = w.counts j) := by
  constructor
  · intro D ts p w
    exact new_from_same_surface_isSome ts p w
  · intro D ts p w q w' h
    obtain ⟨hq, hw⟩ := new_from_same_surface_some h
    subst hq
    subst hw
    refine ⟨rfl, rfl, rfl, ?_, ?_⟩
    · simp
    · intro j hj
      simp [Function.update_noteq hj]

/-- Witness for C4 at a concrete sibling creation from a New picture. -/
theorem c4_sibling_spec_witness :
    siblingPic.state = PState.new
    ∧ siblingPic.inner.surface = (samplePic PState.new).inner.surface
    ∧ wSib.counts (samplePic PState.new).inner.surface.cellId
        = w1.counts (samplePic PState.new).inner.surface.cellId + 1
    ∧ wSib.counts 5 = w1.counts 5 := by
  have h := c4_sibling_spec.2 Unit 43 (samplePic PState.new) w1 siblingPic wSib rfl
  exact ⟨h.1, h.2.1, h.2.2.2.1, h.2.2.2.2 5 (by decide)⟩

/-- C5: every successful transition rebinds exactly the same inner data
(timestamp, context, buffers, surface) under the next state tag. -/
theorem c5_transition_preserves_inner :
    (∀ (D : Type) (o : VaOracle) (p q : Picture D),
        p.begin o = some (Except.ok q) → q.inner = p.inner ∧ q.state = PState.begun)
    ∧ (∀ (D : Type) (o : VaOracle) (p q : Picture D),
        p.render o = some (Except.ok q) → q.inner = p.inner ∧ q.state = PState.rendering)
    ∧ (∀ (D : Type) (o : VaOracle) (p q : Picture D),
        p.endPic o = some (Except.ok q) → q.inner = p.inner ∧ q.state = PState.ended)
    ∧ (∀ (D : Type) (o : VaOracle) (p q : Picture D),
        p.sync o = some (Except.ok q) → q.inner = p.inner ∧ q.state = PState.synced) := by
  refine ⟨?_, ?_, ?_, ?_⟩
  · intro D o p q h
    obtain ⟨hs, hq⟩ := begin_ok h
    subst hq
    exact ⟨rfl, rfl⟩
  · intro D o p q h
    obtain ⟨hs, hq⟩ := render_ok h
    subst hq
    exact ⟨rfl, rfl⟩
  · intro D o p q h
    obtain ⟨hs, hq⟩ := endPic_ok h
    subst hq
    exact ⟨rfl, rfl⟩
  · intro D o p q h
    obtain ⟨hs, hq⟩ := sync_ok h
    subst hq
    exact ⟨rfl, rfl⟩

/-- Witness for C5 at a concrete successful begin. -/
theorem c5_transition_preserves_inner_witness :
    (samplePic PState.begun).inner = (samplePic PState.new).inner
    ∧ (samplePic PState.begun).state = PState.begun :=
  c5_transition_preserves_inner.1 Unit oracleOk (samplePic PState.new)
    (samplePic PState.begun) rfl

/-- C6: the buffer list is mutable only in the initial state: `add_buffer` is
available exactly in state New and appends the buffer at the end of the list
while leaving all other fields alone, and every operation available in a later
state returns pictures whose buffer list is unchanged. -/
theorem c6_buffers_frozen :
    (∀ (D : Type) (p : Picture D) (b : Buffer),
        (p.add_buffer b).isSome ↔ p.state = PState.new)
    ∧ (∀ (D : Type) (p : Picture D) (b : Buffer) (q : Picture D),
        p.add_buffer b = some q →
        q.inner.buffers = p.inner.buffers ++ [b] ∧ q.state = PState.new
          ∧ q.inner.timestamp = p.inner.timestamp ∧ q.inner.context = p.inner.context
          ∧ q.inner.surface = p.inner.surface)
    ∧ (∀ (D : Type) (o : VaOracle) (p q : Picture D),
        p.render o = some (Except.ok q) → q.inner.buffers = p.inner.buffers)
    ∧ (∀ (D : Type) (o : VaOracle) (p q : Picture D),
        p.endPic o = some (Except.ok q) → q.inner.buffers = p.inner.buffers)
    ∧ (∀ (D : Type) (o : VaOracle) (p q : Picture D),
        p.sync o = some (Except.ok q) → q.inner.buffers = p.inner.buffers)
    ∧ (∀ (D : Type) (o : VaOracle) (p q : Picture D) (e : VaError),
        p.sync o = some (Except.error (e, q)) → q.inner.buffers = p.inner.buffers)
    ∧ (∀ (D : Type) (p q : Picture D) (w w' : World),
        p.take_surface w = some (Sum.inr q, w') → q.inner.buffers = p.inner.buffers) := by
  refine ⟨?_, ?_, ?_, ?_, ?_, ?_, ?_⟩
  · intro D p b
    exact add_buffer_isSome p b
  · intro D p b q h
    have hq := add_buffer_some h
    subst hq
    exact ⟨rfl, rfl, rfl, rfl, rfl⟩
  · intro D o p q h
    obtain ⟨hs, hq⟩ := render_ok h
    subst hq
    rfl
  · intro D o p q h
    obtain ⟨hs, hq⟩ := endPic_ok h
    subst hq
    rfl
  · intro D o p q h
    obtain ⟨hs, hq⟩ := sync_ok h
    subst hq
    rfl
  · intro D o p q e h
    obtain ⟨hs, hq⟩ := sync_err h
    subst hq
    rfl
  · intro D p q w w' h
    obtain ⟨hq, hw⟩ := (take_surface_some h).2.2.2 q rfl
    subst hq
    rfl

/-- Witness for C6 at a concrete `add_buffer` in state New. -/
theorem c6_buffers_frozen_witness :
    bufPic.inner.buffers = (samplePic PState.new).inner.buffers ++ [⟨9⟩]
    ∧ bufPic.state = PState.new :=
  have h := c6_buffers_frozen.2.1 Unit (samplePic PState.new) ⟨9⟩ bufPic rfl
  ⟨h.1, h.2.1⟩

/-- C7: `create_image` is available exactly on a Synced picture; on either
failure path (allocation failure, or copy failure after a successful
allocation, where the fresh image is destroyed before the error propagates)
the number of live image resources after the call equals the number before
it, while a fully successful call leaves exactly one new live image. -/
theorem c7_create_image_no_leak :
    (∀ (D : Type) (o : VaOracle) (p : Picture D) (f : VAImageFormat)
        (cr dr : Nat × Nat) (iw : ImageWorld),
        (p.create_image o f cr dr iw).isSome ↔ p.state = PState.synced)
    ∧ (∀ (D : Type) (o : VaOracle) (p : Picture D) (f : VAImageFormat)
        (cr dr : Nat × Nat) (iw : ImageWorld) (e : VaError) (iw' : ImageWorld),
        p.create_image o f cr dr iw = some (Except.error e, iw') → iw'.live = iw.live)
    ∧ (∀ (D : Type) (o : VaOracle) (p : Picture D) (f : VAImageFormat)
        (cr dr : Nat × Nat) (iw : ImageWorld) (img : Image) (iw' : ImageWorld),
        p.create_image o f cr dr iw = some (Except.ok img, iw') → iw'.live = iw.live + 1) := by
  refine ⟨?_, ?_, ?_⟩
  · intro D o p f cr dr iw
    exact create_image_isSome o p f cr dr iw
  · intro D o p f cr dr iw e iw' h
    exact create_image_err h
  · intro D o p f cr dr iw img iw' h
    exact create_image_succ h

/-- Witness for C7 at a concrete copy failure: the image allocated by the
create call is destroyed again, so no live image remains. -/
theorem c7_create_image_no_leak_witness :
    (⟨0, 1⟩ : ImageWorld).live = iw0.live :=
  c7_create_image_no_leak.2.1 Unit oGetFail (samplePic PState.synced) fmt0
    (2, 2) (2, 2) iw0 ⟨1⟩ ⟨0, 1⟩ rfl

/-- C8: `Picture::new` yields a picture in state New carrying the given
timestamp and context, an empty buffer list, and the given surface in a fresh
shared cell whose strong count is exactly 1, all other cells untouched. -/
theorem c8_new_spec :
    ∀ (D : Type) (ts ctx : Nat) (s : Surface D) (w : World),
      (Picture.new ts ctx s w).1.state = PState.new
      ∧ (Picture.new ts ctx s w).1.inner.timestamp = ts
      ∧ (Picture.new ts ctx s w).1.inner.context = ctx
      ∧ (Picture.new ts ctx s w).1.inner.buffers = []
      ∧ (Picture.new ts ctx s w).1.inner.surface.val = s
      ∧ (Picture.new ts ctx s w).1.inner.surface.cellId = w.nextId
      ∧ (Picture.new ts ctx s w).2.counts (Picture.new ts ctx s w).1.inner.surface.cellId = 1
      ∧ ∀ j, j ≠ w.nextId → (Picture.new ts ctx s w).2.counts j = w.counts j := by
  intro D ts ctx s w
  refine ⟨rfl, rfl, rfl, rfl, rfl, rfl, ?_, ?_⟩
  · simp [Picture.new, World.newRc]
  · intro j hj
    simp [Picture.new, World.newRc, Function.update_noteq hj]

/-- Witness for C8 at a concrete creation. -/
theorem c8_new_spec_witness :
    (Picture.new 42 7 surf0 w1).1.inner.timestamp = 42
    ∧ (Picture.new 42 7 surf0 w1).2.counts
        (Picture.new 42 7 surf0 w1).1.inner.surface.cellId = 1
    ∧ (Picture.new 42 7 surf0 w1).2.counts 5 = w1.counts 5 :=
  have h := c8_new_spec Unit 42 7 surf0 w1
  ⟨h.2.1, h.2.2.2.2.2.2.1, h.2.2.2.2.2.2.2 5 (by decide)⟩

/-- C9 counterexample: `derive_image` takes its receiver by immutable borrow
(`&self`, not `self`), so it does not consume the picture: at a concrete
Synced picture the derive succeeds and `take_surface` is afterwards still
available on the very same handle, contradicting the claim that no further
operation may be performed on it. -/
theorem c9_consumes_counterexample :
    PicOp.consumesReceiver PicOp.opDeriveImage = false
    ∧ PicOp.consumesReceiver PicOp.opCreateImage = false
    ∧ (Picture.derive_image oracleOk (samplePic PState.synced) (64, 64) iw0).isSome = true
    ∧ (Picture.take_surface (samplePic PState.synced) w1).isSome = true := by
  exact ⟨rfl, rfl, rfl, rfl⟩

/-- C9 (amended): `derive_image` and `create_image` are available only on a
Synced picture but borrow it immutably, so the picture is not consumed and
remains usable afterwards (for example `take_surface` is still available on
it); `take_surface`, by contrast, does take the receiver by value and so does
consume the picture on success. -/
theorem c9_derive_borrows :
    PicOp.consumesReceiver PicOp.opDeriveImage = false
    ∧ PicOp.consumesReceiver PicOp.opCreateImage = false
    ∧ PicOp.consumesReceiver PicOp.opTakeSurface = true
    ∧ (∀ (D : Type) (o : VaOracle) (p : Picture D) (dr : Nat × Nat) (iw : ImageWorld),
        (p.derive_image o dr iw).isSome ↔ p.state = PState.synced)
    ∧ (∀ (D : Type) (p : Picture D) (w : World),
        p.state = PState.synced → (p.take_surface w).isSome = true) := by
  refine ⟨rfl, rfl, rfl, ?_, ?_⟩
  · intro D o p dr iw
    exact derive_image_isSome o p dr iw
  · intro D p w hs
    exact (take_surface_isSome p w).mpr (Or.inr hs)

/-- Witness for the amended C9 at a concrete Synced picture. -/
theorem c9_derive_borrows_witness :
    (Picture.take_surface (samplePic PState.synced) w1).isSome = true :=
  c9_derive_borrows.2.2.2.2 Unit (samplePic PState.synced) w1 rfl

/-- C10: the sibling picture starts with its own empty buffer list and exactly
the timestamp passed to the call (nothing is copied from the source's buffers
or timestamp), shares the source's surface and context references, and the
only world change is at the shared surface cell; the source picture is
borrowed immutably, so it is not modified by the call. -/
theorem c10_sibling_fresh_fields :
    ∀ (D : Type) (ts : Nat) (p : Picture D) (w : World) (q : Picture D) (w' : World),
      Picture.new_from_same_surface ts p w = some (q, w') →
      q.inner.buffers = [] ∧ q.inner.timestamp = ts
        ∧ q.inner.surface = p.inner.surface ∧ q.inner.context = p.inner.context
        ∧ w'.nextId = w.nextId
        ∧ ∀ j, j ≠ p.inner.surface.cellId → w'.counts j = w.counts j := by
  intro D ts p w q w' h
  obtain ⟨hq, hw⟩ := new_from_same_surface_some h
  subst hq
  subst hw
  refine ⟨rfl, rfl, rfl, rfl, rfl, ?_⟩
  intro j hj
  simp [Function.update_noteq hj]

/-- Witness for C10 at a concrete sibling creation with timestamp 43. -/
theorem c10_sibling_fresh_fields_witness :
    siblingPic.inner.buffers = [] ∧ siblingPic.inner.timestamp = 43
    ∧ wSib.counts 5 = w1.counts 5 :=
  have h := c10_sibling_fresh_fields Unit 43 (samplePic PState.new) w1 siblingPic wSib rfl
  ⟨h.1, h.2.1, h.2.2.2.2.2 5 (by decide)⟩

end CrosLibva
